import Mathlib

/-
Verification of the pihole-ansible collection: a shallow embedding of the
seven Ansible modules under plugins/modules.  Each module is modelled as a
pure function from its parameters and a client oracle (one field per
pihole6api remote operation, returning either a response dictionary or the
text of a raised exception) to an outcome (exit_json vs fail_json) paired
with the trace of client calls that were attempted.
-/

/-- Python-style JSON-like values modelling the dictionaries exchanged with
the pihole6api client and the module result objects. -/
inductive JVal where
  | str (s : String)
  | int (n : Int)
  | bool (b : Bool)
  | list (xs : List JVal)
  | dict (fields : List (String × JVal))

/-- A Python dictionary with string keys, in insertion order. -/
abbrev JDict := List (String × JVal)

/-- Dictionary lookup (Python `d[k]` / `d.get(k)`). -/
def jlookup : JDict → String → Option JVal
  | [], _ => none
  | (k, v) :: rest, key => if k = key then some v else jlookup rest key

/-- Python `d.get(key, dflt)`. -/
def getD (d : JDict) (key : String) (dflt : JVal) : JVal :=
  match jlookup d key with
  | some v => v
  | none => dflt

/-- Python truthiness of a value. -/
def JVal.truthy : JVal → Bool
  | .str s => !s.isEmpty
  | .int n => !(n == 0)
  | .bool b => b
  | .list xs => !xs.isEmpty
  | .dict f => !f.isEmpty

/-- Python `d.get(key, dflt)` used in boolean position (truthiness). -/
def getBoolD (d : JDict) (key : String) (dflt : Bool) : Bool :=
  match jlookup d key with
  | some v => v.truthy
  | none => dflt

/-- Python `d[key] = v`: replace in place if present, else append. -/
def assocSet : JDict → String → JVal → JDict
  | [], key, v => [(key, v)]
  | (k, w) :: rest, key, v =>
    if k = key then (key, v) :: rest else (k, w) :: assocSet rest key v

/-- Python `v > 0` for the numeric values the API returns; non-numeric
values (ill-typed API responses) are treated as not greater. -/
def jGT0 : JVal → Bool
  | .int n => decide (0 < n)
  | .bool b => b
  | _ => false

/-- Python falsiness of an optional string parameter (`not x`). -/
def optStrFalsy : Option String → Bool
  | none => true
  | some s => s.isEmpty

/-- Python falsiness of an optional dict parameter (`not x`). -/
def optDictFalsy : Option JDict → Bool
  | none => true
  | some d => d.isEmpty

/-- One attempted client-library call, as recorded in a run's trace. -/
inductive RCall where
  | construct
  | flush_arp
  | flush_logs
  | run_gravity
  | restart_dns
  | get_blocking_status
  | set_blocking_status
  | get_config_call
  | update_config_call
  | add_config_item_call
  | delete_config_item_call
  | export_settings_call
  | import_settings_call
  | get_groups
  | get_domain
  | add_domain_call
  | update_domain_call
  | delete_domain_call
  | metrics_call
  | ftl_call
  | network_call
  | close_session
deriving DecidableEq

/-- Which client calls mutate remote appliance state (the session open,
reads, the configuration download and the session close do not). -/
def RCall.mutating : RCall → Bool
  | .flush_arp | .flush_logs | .run_gravity | .restart_dns => true
  | .set_blocking_status => true
  | .update_config_call | .add_config_item_call => true
  | .delete_config_item_call | .import_settings_call => true
  | .add_domain_call | .update_domain_call | .delete_domain_call => true
  | _ => false

/-- How a module invocation terminated: `exit_json` with a result dict, or
`fail_json` with a message and the result dict spread into the failure. -/
inductive Outcome where
  | exited (result : JDict)
  | failed (msg : String) (result : JDict)

/-- The result dictionary carried by an outcome. -/
def Outcome.dict : Outcome → JDict
  | .exited r => r
  | .failed _ r => r

/-- Whether the invocation surfaced as a module failure. -/
def Outcome.isFailed : Outcome → Bool
  | .exited _ => false
  | .failed _ _ => true

/-- A module run: its outcome and the trace of attempted client calls. -/
abbrev ModuleRun := Outcome × List RCall

/-- The `changed` flag reported by an outcome. -/
def changedOf (o : Outcome) : Bool := getBoolD o.dict "changed" false

/-- Whether a remote call's outcome counts as success in the modules'
`result.get('success', False)` idiom. -/
def succOf : Except String JDict → Bool
  | .ok d => getBoolD d "success" false
  | .error _ => false

namespace Actions

/-- Parameters of the actions module (plugins/modules/actions.py). -/
structure Params where
  action : String
  password : String
  url : String
  checkMode : Bool

/-- Oracle for the pihole6api calls the actions module can make. -/
structure Client where
  construct : Except String Unit
  flush_arp : Except String JDict
  flush_logs : Except String JDict
  run_gravity : Except String JDict
  restart_dns : Except String JDict
  close_session : Except String Unit

/-- The four system actions of the module's fixed choices list. -/
inductive AAction where
  | flush_arp
  | flush_logs
  | run_gravity
  | restart_dns

/-- Modelled from the spec: ansible-core enforcement of the choices list
declared for `action` in this module's argument spec; an invalid selector
is rejected before the module body runs. -/
def parseAction : String → Option AAction
  | "flush_arp" => some .flush_arp
  | "flush_logs" => some .flush_logs
  | "run_gravity" => some .run_gravity
  | "restart_dns" => some .restart_dns
  | _ => none

/-- The client call dispatched to for each action. -/
def callFor (c : Client) : AAction → Except String JDict
  | .flush_arp => c.flush_arp
  | .flush_logs => c.flush_logs
  | .run_gravity => c.run_gravity
  | .restart_dns => c.restart_dns

/-- Trace tag of the client call dispatched to for each action. -/
def callName : AAction → RCall
  | .flush_arp => .flush_arp
  | .flush_logs => .flush_logs
  | .run_gravity => .run_gravity
  | .restart_dns => .restart_dns

/-- `perform_action` of actions.py: dispatch on the action, read the
`success` flag, and convert a raised exception into an error dict. -/
def perform_action (c : Client) (a : AAction) : Bool × JDict :=
  match callFor c a with
  | .ok r => (getBoolD r "success" false, r)
  | .error e => (false, [("error", .str e)])

/-- `main` of actions.py. -/
def main (p : Params) (c : Client) : ModuleRun :=
  match parseAction p.action with
  | none =>
    (.failed ("value of action must be one of: flush_arp, flush_logs, run_gravity, restart_dns, got: " ++ p.action) [], [])
  | some a =>
    let r0 : JDict :=
      [("changed", .bool false), ("action_performed", .str ""),
       ("success", .bool false), ("response", .dict [])]
    let r1 := assocSet r0 "action_performed" (.str p.action)
    match c.construct with
    | .error e =>
      (.failed ("Failed to perform action " ++ p.action ++ ": " ++ e) r1, [.construct])
    | .ok _ =>
      if p.checkMode then
        let r2 := assocSet (assocSet (assocSet r1 "changed" (.bool true)) "success" (.bool true))
          "response" (.dict [("message", .str ("Would perform action: " ++ p.action))])
        (.exited r2, [.construct, .close_session])
      else
        let pr := perform_action c a
        let r2 := assocSet (assocSet r1 "success" (.bool pr.1)) "response" (.dict pr.2)
        if pr.1 then
          (.exited (assocSet r2 "changed" (.bool true)), [.construct, callName a, .close_session])
        else
          (.failed ("Failed to perform action " ++ p.action) r2, [.construct, callName a])

end Actions

namespace DnsControl

/-- Parameters of the dns_control module (plugins/modules/dns_control.py). -/
structure Params where
  action : String
  timer : Option Int
  password : String
  url : String
  checkMode : Bool

/-- Oracle for the pihole6api calls the dns_control module can make. -/
structure Client where
  construct : Except String Unit
  get_blocking_status : Except String JDict
  set_blocking_status : Bool → Option Int → Except String JDict
  close_session : Except String Unit

/-- The three actions of the module's fixed choices list. -/
inductive DAction where
  | enable
  | disable
  | status

/-- Modelled from the spec: ansible-core enforcement of the choices list
declared for `action` in this module's argument spec; an invalid selector
is rejected before the module body runs. -/
def parseAction : String → Option DAction
  | "enable" => some .enable
  | "disable" => some .disable
  | "status" => some .status
  | _ => none

/-- `get_blocking_status` of dns_control.py: on success return the raw
`blocking` value (default `False`), the raw `timer` value (default `0`) and
the response; a raised exception yields `None, None` and an error dict. -/
def get_blocking_status (c : Client) : Option JVal × Option JVal × JDict :=
  match c.get_blocking_status with
  | .ok r => (some (getD r "blocking" (.bool false)), some (getD r "timer" (.int 0)), r)
  | .error e => (none, none, [("error", .str e)])

/-- `set_blocking_status` of dns_control.py. -/
def set_blocking_status (c : Client) (blocking : Bool) (timer : Option Int) : Bool × JDict :=
  match c.set_blocking_status blocking timer with
  | .ok r => (getBoolD r "success" false, r)
  | .error e => (false, [("error", .str e)])

/-- Python `if timer: result['timer'] = timer` (None and 0 are falsy). -/
def setTimerIf (d : JDict) (timer : Option Int) : JDict :=
  match timer with
  | none => d
  | some t => if t == 0 then d else assocSet d "timer" (.int t)

/-- `main` of dns_control.py. -/
def main (p : Params) (c : Client) : ModuleRun :=
  match parseAction p.action with
  | none =>
    (.failed ("value of action must be one of: enable, disable, status, got: " ++ p.action) [], [])
  | some a =>
    let r0 : JDict := [("changed", .bool false), ("action_performed", .str "")]
    match c.construct with
    | .error e =>
      (.failed ("Failed to control DNS blocking: " ++ e) r0, [.construct])
    | .ok _ =>
      match get_blocking_status c with
      | (some cb, some ct, _) =>
        let r1 := assocSet r0 "blocking" cb
        let r2 := if jGT0 ct then assocSet r1 "timer" ct else r1
        match a with
        | .status =>
          (.exited (assocSet r2 "action_performed" (.str "status")),
           [.construct, .get_blocking_status, .close_session])
        | .enable =>
          let r3 := assocSet r2 "action_performed" (.str "enable")
          if !cb.truthy || jGT0 ct then
            if !p.checkMode then
              let sr := set_blocking_status c true p.timer
              if sr.1 then
                let r4 := assocSet (assocSet r3 "changed" (.bool true)) "blocking" (.bool true)
                (.exited (setTimerIf r4 p.timer),
                 [.construct, .get_blocking_status, .set_blocking_status, .close_session])
              else
                (.failed "Failed to enable blocking" (assocSet r3 "response" (.dict sr.2)),
                 [.construct, .get_blocking_status, .set_blocking_status])
            else
              let r4 := assocSet (assocSet r3 "changed" (.bool true)) "blocking" (.bool true)
              (.exited (setTimerIf r4 p.timer),
               [.construct, .get_blocking_status, .close_session])
          else
            (.exited r3, [.construct, .get_blocking_status, .close_session])
        | .disable =>
          let r3 := assocSet r2 "action_performed" (.str "disable")
          if cb.truthy then
            if !p.checkMode then
              let sr := set_blocking_status c false p.timer
              if sr.1 then
                let r4 := assocSet (assocSet r3 "changed" (.bool true)) "blocking" (.bool false)
                (.exited (setTimerIf r4 p.timer),
                 [.construct, .get_blocking_status, .set_blocking_status, .close_session])
              else
                (.failed "Failed to disable blocking" (assocSet r3 "response" (.dict sr.2)),
                 [.construct, .get_blocking_status, .set_blocking_status])
            else
              let r4 := assocSet (assocSet r3 "changed" (.bool true)) "blocking" (.bool false)
              (.exited (setTimerIf r4 p.timer),
               [.construct, .get_blocking_status, .close_session])
          else
            (.exited r3, [.construct, .get_blocking_status, .close_session])
      | _ =>
        (.failed "Failed to get current blocking status" r0, [.construct, .get_blocking_status])

end DnsControl

mutual

/-- Python `str`/`repr` of a value, as interpolated into f-strings. -/
def JVal.pyRepr : JVal → String
  | .str s => "\x27" ++ s ++ "\x27"
  | .int n => toString n
  | .bool b => if b then "True" else "False"
  | .list xs => "[" ++ pyReprElems xs ++ "]"
  | .dict fs => "\x7b" ++ pyReprItems fs ++ "\x7d"

/-- Comma-separated rendering of list elements. -/
def pyReprElems : List JVal → String
  | [] => ""
  | [v] => v.pyRepr
  | v :: rest => v.pyRepr ++ ", " ++ pyReprElems rest

/-- Comma-separated rendering of dict items. -/
def pyReprItems : List (String × JVal) → String
  | [] => ""
  | [(k, v)] => "\x27" ++ k ++ "\x27: " ++ v.pyRepr
  | (k, v) :: rest => "\x27" ++ k ++ "\x27: " ++ v.pyRepr ++ ", " ++ pyReprItems rest

end

namespace Config

/-- Parameters of the config_management module
(plugins/modules/config_management.py). -/
structure Params where
  action : String
  config_section : Option String
  config_changes : Option JDict
  element : Option String
  value : Option String
  export_path : Option String
  import_path : Option String
  import_options : Option JDict
  detailed : Bool
  password : String
  url : String
  checkMode : Bool

/-- Oracle for the pihole6api calls the config_management module can make,
plus the local filesystem effects of export/import. -/
structure Client where
  construct : Except String Unit
  get_config_section : String → Bool → Except String JDict
  get_config : Bool → Except String JDict
  update_config : JDict → Except String JDict
  add_config_item : String → String → Except String JDict
  delete_config_item : String → String → Except String JDict
  export_settings : Except String Unit
  write_export : String → Except String Unit
  file_exists : String → Bool
  import_settings : String → Option JDict → Except String JDict
  close_session : Except String Unit

/-- The six actions of the module's fixed choices list. -/
inductive CAction where
  | get
  | update
  | exportc
  | importc
  | add_item
  | delete_item

/-- Modelled from the spec: ansible-core enforcement of the choices list
declared for `action` in this module's argument spec; an invalid selector
is rejected before the module body runs. -/
def parseAction : String → Option CAction
  | "get" => some .get
  | "update" => some .update
  | "export" => some .exportc
  | "import" => some .importc
  | "add_item" => some .add_item
  | "delete_item" => some .delete_item
  | _ => none

/-- `get_config` of config_management.py: a non-raising response always
counts as success; `config_section` is tested by Python truthiness. -/
def get_config (c : Client) (cs : Option String) (detailed : Bool) : Bool × JDict :=
  if !optStrFalsy cs then
    match c.get_config_section (cs.getD "") detailed with
    | .ok r => (true, r)
    | .error e => (false, [("error", .str e)])
  else
    match c.get_config detailed with
    | .ok r => (true, r)
    | .error e => (false, [("error", .str e)])

/-- `update_config` of config_management.py. -/
def update_config (c : Client) (changes : JDict) : Bool × JDict :=
  match c.update_config changes with
  | .ok r => (getBoolD r "success" false, r)
  | .error e => (false, [("error", .str e)])

/-- `add_config_item` of config_management.py. -/
def add_config_item (c : Client) (element value : String) : Bool × JDict :=
  match c.add_config_item element value with
  | .ok r => (getBoolD r "success" false, r)
  | .error e => (false, [("error", .str e)])

/-- `delete_config_item` of config_management.py. -/
def delete_config_item (c : Client) (element value : String) : Bool × JDict :=
  match c.delete_config_item element value with
  | .ok r => (getBoolD r "success" false, r)
  | .error e => (false, [("error", .str e)])

/-- `export_config` of config_management.py: download the settings blob and
write it to the local path; an exception in either step is caught by the
same handler. -/
def export_config (c : Client) (path : String) : Bool × JDict :=
  match c.export_settings with
  | .error e => (false, [("error", .str e)])
  | .ok _ =>
    match c.write_export path with
    | .error e => (false, [("error", .str e)])
    | .ok _ => (true, [("message", .str ("Configuration exported to " ++ path))])

/-- `import_config` of config_management.py. -/
def import_config (c : Client) (path : String) (opts : Option JDict) : Bool × JDict :=
  if !c.file_exists path then
    (false, [("error", .str ("Import file not found: " ++ path))])
  else
    match c.import_settings path opts with
    | .ok r => (getBoolD r "success" false, r)
    | .error e => (false, [("error", .str e)])

/-- Whether the parsed action is `get` (the `action != 'get'` test). -/
def isGet : CAction → Bool
  | .get => true
  | _ => false

/-- The per-action body of `main`: the result dict after the action branch,
and the trace of client calls it attempted. -/
def actionStep (p : Params) (c : Client) (a : CAction) (r1 : JDict) : JDict × List RCall :=
  match a with
  | .get =>
    let gr := get_config c p.config_section p.detailed
    let r2 := assocSet (assocSet r1 "success" (.bool gr.1)) "response" (.dict gr.2)
    (if gr.1 then assocSet r2 "config" (.dict gr.2) else r2, [.get_config_call])
  | .update =>
    if !p.checkMode then
      let ur := update_config c (p.config_changes.getD [])
      let r2 := assocSet (assocSet r1 "success" (.bool ur.1)) "response" (.dict ur.2)
      (if ur.1 then assocSet r2 "changed" (.bool true) else r2, [.update_config_call])
    else
      (assocSet (assocSet (assocSet r1 "changed" (.bool true)) "success" (.bool true))
        "response" (.dict [("message", .str ("Would update configuration with: " ++ JVal.pyRepr (.dict (p.config_changes.getD []))))]), [])
  | .add_item =>
    if !p.checkMode then
      let ar := add_config_item c (p.element.getD "") (p.value.getD "")
      let r2 := assocSet (assocSet r1 "success" (.bool ar.1)) "response" (.dict ar.2)
      (if ar.1 then assocSet r2 "changed" (.bool true) else r2, [.add_config_item_call])
    else
      (assocSet (assocSet (assocSet r1 "changed" (.bool true)) "success" (.bool true))
        "response" (.dict [("message", .str ("Would add " ++ p.value.getD "" ++ " to " ++ p.element.getD ""))]), [])
  | .delete_item =>
    if !p.checkMode then
      let dr := delete_config_item c (p.element.getD "") (p.value.getD "")
      let r2 := assocSet (assocSet r1 "success" (.bool dr.1)) "response" (.dict dr.2)
      (if dr.1 then assocSet r2 "changed" (.bool true) else r2, [.delete_config_item_call])
    else
      (assocSet (assocSet (assocSet r1 "changed" (.bool true)) "success" (.bool true))
        "response" (.dict [("message", .str ("Would remove " ++ p.value.getD "" ++ " from " ++ p.element.getD ""))]), [])
  | .exportc =>
    if !p.checkMode then
      let er := export_config c (p.export_path.getD "")
      let r2 := assocSet (assocSet r1 "success" (.bool er.1)) "response" (.dict er.2)
      (if er.1 then assocSet (assocSet r2 "changed" (.bool true)) "export_path" (.str (p.export_path.getD "")) else r2,
       [.export_settings_call])
    else
      (assocSet (assocSet (assocSet (assocSet r1 "changed" (.bool true)) "success" (.bool true))
        "response" (.dict [("message", .str ("Would export configuration to " ++ p.export_path.getD ""))]))
        "export_path" (.str (p.export_path.getD "")), [])
  | .importc =>
    if !p.checkMode then
      let ir := import_config c (p.import_path.getD "") p.import_options
      let r2 := assocSet (assocSet r1 "success" (.bool ir.1)) "response" (.dict ir.2)
      (if ir.1 then assocSet r2 "changed" (.bool true) else r2, [.import_settings_call])
    else
      (assocSet (assocSet (assocSet r1 "changed" (.bool true)) "success" (.bool true))
        "response" (.dict [("message", .str ("Would import configuration from " ++ p.import_path.getD ""))]), [])

/-- The body of `main` after parameter validation: construct the client,
run the action branch, and apply the common failure check and teardown. -/
def mainBody (p : Params) (c : Client) (a : CAction) (r1 : JDict) : ModuleRun :=
  match c.construct with
  | .error e =>
    (.failed ("Failed to perform configuration action " ++ p.action ++ ": " ++ e) r1, [.construct])
  | .ok _ =>
    let st := actionStep p c a r1
    if getBoolD st.1 "success" false || isGet a then
      (.exited st.1, .construct :: st.2 ++ [.close_session])
    else
      (.failed ("Failed to perform action " ++ p.action) st.1, .construct :: st.2)

/-- `main` of config_management.py. -/
def main (p : Params) (c : Client) : ModuleRun :=
  match parseAction p.action with
  | none =>
    (.failed ("value of action must be one of: get, update, export, import, add_item, delete_item, got: " ++ p.action) [], [])
  | some a =>
    let r0 : JDict :=
      [("changed", .bool false), ("action_performed", .str ""),
       ("success", .bool false), ("response", .dict [])]
    let r1 := assocSet r0 "action_performed" (.str p.action)
    match a with
    | .add_item | .delete_item =>
      if optStrFalsy p.element || optStrFalsy p.value then
        (.failed ("Action " ++ p.action ++ " requires both element and value parameters") [], [])
      else mainBody p c a r1
    | .update =>
      if optDictFalsy p.config_changes then
        (.failed "Action update requires config_changes parameter" [], [])
      else mainBody p c a r1
    | .exportc =>
      if optStrFalsy p.export_path then
        (.failed "Action export requires export_path parameter" [], [])
      else mainBody p c a r1
    | .importc =>
      if optStrFalsy p.import_path then
        (.failed "Action import requires import_path parameter" [], [])
      else mainBody p c a r1
    | .get => mainBody p c a r1

end Config

namespace Domain

/-- The `domain_type` suboption choices. -/
inductive DType where
  | allow
  | deny
deriving DecidableEq

/-- Rendering of a `domain_type` value back to its parameter string. -/
def DType.render : DType → String
  | .allow => "allow"
  | .deny => "deny"

/-- The `kind` suboption choices. -/
inductive DKind where
  | exact
  | regex
deriving DecidableEq

/-- Rendering of a `kind` value back to its parameter string. -/
def DKind.render : DKind → String
  | .exact => "exact"
  | .regex => "regex"

/-- The `state` suboption choices. -/
inductive DState where
  | present
  | absent
deriving DecidableEq

/-- Rendering of a `state` value back to its parameter string. -/
def DState.render : DState → String
  | .present => "present"
  | .absent => "absent"

/-- One validated entry of the `domains` list parameter
(plugins/modules/domain_management.py). -/
structure Entry where
  domain : String
  domain_type : DType
  kind : DKind
  state : DState
  comment : Option String
  groups : List String
  enabled : Bool

/-- Parameters of the domain_management module. -/
structure Params where
  domains : List Entry
  password : String
  url : String
  checkMode : Bool

/-- Oracle for the pihole6api calls the domain_management module can make. -/
structure Client where
  construct : Except String Unit
  get_groups : Except String JDict
  get_domain : String → DType → DKind → Except String JDict
  add_domain : String → DType → DKind → Option String → Option (List JVal) → Bool → Except String JDict
  update_domain : String → DType → DKind → Option String → Option (List JVal) → Bool → Except String JDict
  delete_domain : String → DType → DKind → Except String JDict
  close_session : Except String Unit

/-- Extraction of the `{group['name']: group['id']}` comprehension: `none`
when some element is not a dict with `name` and `id` keys (the KeyError
path); string-named groups populate the mapping in order, later entries
winning; non-string names can never be matched by a string lookup and are
dropped. -/
def extractGroups : List (String × JVal) → List JVal → Option (List (String × JVal))
  | m, [] => some m
  | m, .dict g :: rest =>
    match jlookup g "name", jlookup g "id" with
    | some nm, some gid =>
      match nm with
      | .str s => extractGroups (assocSet m s gid) rest
      | _ => extractGroups m rest
    | _, _ => none
  | _, _ :: _ => none

/-- `get_group_name_to_id_mapping` of domain_management.py: any exception
or malformed group record yields the empty mapping. -/
def get_group_name_to_id_mapping (c : Client) : List (String × JVal) :=
  match c.get_groups with
  | .error _ => []
  | .ok r =>
    match getD r "groups" (.list []) with
    | .list gs =>
      match extractGroups [] gs with
      | some m => m
      | none => []
    | _ => []

/-- `domain_exists` of domain_management.py. -/
def domain_exists (c : Client) (domain : String) (t : DType) (k : DKind) : Bool :=
  match c.get_domain domain t k with
  | .ok r => getBoolD r "success" false
  | .error _ => false

/-- The group-name-to-id mapping step shared by add and update: unknown
names are skipped, an empty id list is passed as `None`. -/
def mapGroupIds (gm : List (String × JVal)) (gs : List String) : Option (List JVal) :=
  let ids := gs.foldl (fun acc g =>
    match jlookup gm g with
    | some gid => acc ++ [gid]
    | none => acc) []
  if ids.isEmpty then none else some ids

/-- `add_domain` of domain_management.py. -/
def add_domain (c : Client) (e : Entry) (gm : List (String × JVal)) : Bool × JDict :=
  match c.add_domain e.domain e.domain_type e.kind e.comment (mapGroupIds gm e.groups) e.enabled with
  | .ok r => (getBoolD r "success" false, r)
  | .error ex => (false, [("error", .str ex)])

/-- `update_domain` of domain_management.py. -/
def update_domain (c : Client) (e : Entry) (gm : List (String × JVal)) : Bool × JDict :=
  match c.update_domain e.domain e.domain_type e.kind e.comment (mapGroupIds gm e.groups) e.enabled with
  | .ok r => (getBoolD r "success" false, r)
  | .error ex => (false, [("error", .str ex)])

/-- `delete_domain` of domain_management.py. -/
def delete_domain (c : Client) (e : Entry) : Bool × JDict :=
  match c.delete_domain e.domain e.domain_type e.kind with
  | .ok r => (getBoolD r "success" false, r)
  | .error ex => (false, [("error", .str ex)])

/-- One iteration of the per-domain loop: the per-entry result record, the
contribution to the global `changed` flag, and the client calls made. -/
def processOne (ck : Bool) (c : Client) (gm : List (String × JVal)) (e : Entry) :
    JDict × Bool × List RCall :=
  let base : JDict :=
    [("domain", .str e.domain), ("domain_type", .str e.domain_type.render),
     ("kind", .str e.kind.render), ("state", .str e.state.render),
     ("changed", .bool false), ("success", .bool false)]
  let ex := domain_exists c e.domain e.domain_type e.kind
  match e.state with
  | .present =>
    if ex then
      if !ck then
        let ur := update_domain c e gm
        let r1 := assocSet (assocSet base "changed" (.bool ur.1)) "success" (.bool ur.1)
        (assocSet r1 "response" (.dict ur.2), ur.1, [.get_domain, .update_domain_call])
      else
        (base, false, [.get_domain])
    else
      if !ck then
        let ar := add_domain c e gm
        let r1 := assocSet (assocSet base "changed" (.bool ar.1)) "success" (.bool ar.1)
        (assocSet r1 "response" (.dict ar.2), ar.1, [.get_domain, .add_domain_call])
      else
        (assocSet base "changed" (.bool true), true, [.get_domain])
  | .absent =>
    if ex then
      if !ck then
        let dr := delete_domain c e
        let r1 := assocSet (assocSet base "changed" (.bool dr.1)) "success" (.bool dr.1)
        (assocSet r1 "response" (.dict dr.2), dr.1, [.get_domain, .delete_domain_call])
      else
        (assocSet base "changed" (.bool true), true, [.get_domain])
    else
      (base, false, [.get_domain])

/-- The loop accumulator fold of `main`. -/
def loopStep (ck : Bool) (c : Client) (gm : List (String × JVal))
    (acc : Bool × List JVal × List JVal × List RCall) (e : Entry) :
    Bool × List JVal × List JVal × List RCall :=
  let pr := processOne ck c gm e
  (acc.1 || pr.2.1, acc.2.1 ++ [.str e.domain], acc.2.2.1 ++ [.dict pr.1], acc.2.2.2 ++ pr.2.2)

/-- `main` of domain_management.py. -/
def main (p : Params) (c : Client) : ModuleRun :=
  let r0 : JDict := [("changed", .bool false), ("domains", .list []), ("results", .list [])]
  if p.domains.isEmpty then (.exited r0, [])
  else
    match c.construct with
    | .error e => (.failed ("Failed to manage domains: " ++ e) r0, [.construct])
    | .ok _ =>
      let gm := get_group_name_to_id_mapping c
      let acc := p.domains.foldl (loopStep p.checkMode c gm) (false, [], [], [.construct, .get_groups])
      let r1 := assocSet (assocSet (assocSet r0 "changed" (.bool acc.1))
        "domains" (.list acc.2.1)) "results" (.list acc.2.2.1)
      (.exited r1, acc.2.2.2 ++ [.close_session])

end Domain

namespace Metrics

/-- Parameters of the metrics module (plugins/modules/metrics.py); the
optional filter parameters are forwarded verbatim to the client calls and
are absorbed into the oracle. -/
structure Params where
  metric_type : String
  password : String
  url : String
  checkMode : Bool

/-- Oracle for the pihole6api calls the metrics module can make; each field
is the outcome of the corresponding call at this run's filter arguments. -/
structure Client where
  construct : Except String Unit
  get_stats_summary : Except String JDict
  get_stats_query_types : Except String JDict
  get_stats_top_clients : Except String JDict
  get_stats_top_domains : Except String JDict
  get_stats_upstreams : Except String JDict
  get_stats_recent_blocked : Except String JDict
  get_history : Except String JDict
  get_history_clients : Except String JDict
  get_queries : Except String JDict
  get_query_suggestions : Except String JDict
  close_session : Except String Unit

/-- The ten metric types of the module's fixed choices list. -/
inductive MetricType where
  | summary
  | query_types
  | top_clients
  | top_domains
  | upstreams
  | recent_blocked
  | history
  | history_clients
  | queries
  | query_suggestions

/-- Modelled from the spec: ansible-core enforcement of the choices list
declared for `metric_type` in this module's argument spec; an invalid
selector is rejected before the module body runs. -/
def parseMetricType : String → Option MetricType
  | "summary" => some .summary
  | "query_types" => some .query_types
  | "top_clients" => some .top_clients
  | "top_domains" => some .top_domains
  | "upstreams" => some .upstreams
  | "recent_blocked" => some .recent_blocked
  | "history" => some .history
  | "history_clients" => some .history_clients
  | "queries" => some .queries
  | "query_suggestions" => some .query_suggestions
  | _ => none

/-- The client call dispatched to for each metric type. -/
def callFor (c : Client) : MetricType → Except String JDict
  | .summary => c.get_stats_summary
  | .query_types => c.get_stats_query_types
  | .top_clients => c.get_stats_top_clients
  | .top_domains => c.get_stats_top_domains
  | .upstreams => c.get_stats_upstreams
  | .recent_blocked => c.get_stats_recent_blocked
  | .history => c.get_history
  | .history_clients => c.get_history_clients
  | .queries => c.get_queries
  | .query_suggestions => c.get_query_suggestions

/-- `get_metric` of metrics.py: a non-raising response always counts as
success; a raised exception is converted into an error dict. -/
def get_metric (c : Client) (mt : MetricType) : Bool × JDict :=
  match callFor c mt with
  | .ok r => (true, r)
  | .error e => (false, [("error", .str e)])

/-- `main` of metrics.py. -/
def main (p : Params) (c : Client) : ModuleRun :=
  match parseMetricType p.metric_type with
  | none =>
    (.failed ("value of metric_type must be one of the fixed choices, got: " ++ p.metric_type) [], [])
  | some mt =>
    let r0 : JDict :=
      [("success", .bool false), ("metric_type", .str ""),
       ("data", .dict []), ("error", .str "")]
    let r1 := assocSet r0 "metric_type" (.str p.metric_type)
    match c.construct with
    | .error e =>
      (.failed ("Failed to retrieve metric " ++ p.metric_type ++ ": " ++ e)
        (assocSet r1 "error" (.str e)), [.construct])
    | .ok _ =>
      let gr := get_metric c mt
      let r2 := assocSet r1 "success" (.bool gr.1)
      if gr.1 then
        (.exited (assocSet r2 "data" (.dict gr.2)), [.construct, .metrics_call, .close_session])
      else
        (.failed ("Failed to retrieve metric " ++ p.metric_type)
          (assocSet r2 "error" (getD gr.2 "error" (.str "Unknown error"))),
         [.construct, .metrics_call])

end Metrics

namespace FtlInfo

/-- Parameters of the ftl_info module (plugins/modules/ftl_info.py). -/
structure Params where
  password : String
  url : String
  checkMode : Bool

/-- Oracle for the pihole6api calls the ftl_info module can make. -/
structure Client where
  construct : Except String Unit
  get_ftl_info : Except String JDict
  close_session : Except String Unit

/-- `get_ftl_info` of ftl_info.py. -/
def get_ftl_info (c : Client) : Bool × JDict :=
  match c.get_ftl_info with
  | .ok r => (true, r)
  | .error e => (false, [("error", .str e)])

/-- `main` of ftl_info.py. -/
def main (_p : Params) (c : Client) : ModuleRun :=
  let r0 : JDict := [("success", .bool false), ("data", .dict []), ("error", .str "")]
  match c.construct with
  | .error e =>
    (.failed ("Failed to retrieve FTL information: " ++ e)
      (assocSet r0 "error" (.str e)), [.construct])
  | .ok _ =>
    let gr := get_ftl_info c
    let r1 := assocSet r0 "success" (.bool gr.1)
    if gr.1 then
      (.exited (assocSet r1 "data" (.dict gr.2)), [.construct, .ftl_call, .close_session])
    else
      (.failed "Failed to retrieve FTL information"
        (assocSet r1 "error" (getD gr.2 "error" (.str "Unknown error"))),
       [.construct, .ftl_call])

end FtlInfo

namespace NetworkInfo

/-- Parameters of the network_info module (plugins/modules/network_info.py). -/
structure Params where
  info_type : String
  password : String
  url : String
  checkMode : Bool

/-- Oracle for the pihole6api calls the network_info module can make. -/
structure Client where
  construct : Except String Unit
  get_network_info : Except String JDict
  get_network_devices : Except String JDict
  close_session : Except String Unit

/-- The two info types of the module's fixed choices list. -/
inductive NInfo where
  | network_info
  | network_devices

/-- Modelled from the spec: ansible-core enforcement of the choices list
declared for `info_type` in this module's argument spec; an invalid
selector is rejected before the module body runs. -/
def parseInfoType : String → Option NInfo
  | "network_info" => some .network_info
  | "network_devices" => some .network_devices
  | _ => none

/-- `get_network_info` of network_info.py. -/
def get_network_info (c : Client) (it : NInfo) : Bool × JDict :=
  match it with
  | .network_info =>
    match c.get_network_info with
    | .ok r => (true, r)
    | .error e => (false, [("error", .str e)])
  | .network_devices =>
    match c.get_network_devices with
    | .ok r => (true, r)
    | .error e => (false, [("error", .str e)])

/-- `main` of network_info.py. -/
def main (p : Params) (c : Client) : ModuleRun :=
  match parseInfoType p.info_type with
  | none =>
    (.failed ("value of info_type must be one of: network_info, network_devices, got: " ++ p.info_type) [], [])
  | some it =>
    let r0 : JDict :=
      [("success", .bool false), ("info_type", .str ""),
       ("data", .dict []), ("error", .str "")]
    let r1 := assocSet r0 "info_type" (.str p.info_type)
    match c.construct with
    | .error e =>
      (.failed ("Failed to retrieve " ++ p.info_type ++ ": " ++ e)
        (assocSet r1 "error" (.str e)), [.construct])
    | .ok _ =>
      let gr := get_network_info c it
      let r2 := assocSet r1 "success" (.bool gr.1)
      if gr.1 then
        (.exited (assocSet r2 "data" (.dict gr.2)), [.construct, .network_call, .close_session])
      else
        (.failed ("Failed to retrieve " ++ p.info_type)
          (assocSet r2 "error" (getD gr.2 "error" (.str "Unknown error"))),
         [.construct, .network_call])

end NetworkInfo

/-- A successful API response body. -/
def okTrue : JDict := [("success", .bool true)]

/-- An actions-module client whose calls all succeed. -/
def actionsClientOK : Actions.Client :=
  ⟨.ok (), .ok okTrue, .ok okTrue, .ok okTrue, .ok okTrue, .ok ()⟩

/-- A dns_control client reporting blocking already enabled with no timer. -/
def dnsClientEnabledNoTimer : DnsControl.Client :=
  ⟨.ok (), .ok [("blocking", .bool true), ("timer", .int 0)], fun _ _ => .ok okTrue, .ok ()⟩

/-- A config_management client whose calls all succeed. -/
def configClientOK : Config.Client :=
  ⟨.ok (), fun _ _ => .ok [], fun _ => .ok [], fun _ => .ok okTrue, fun _ _ => .ok okTrue,
   fun _ _ => .ok okTrue, .ok (), fun _ => .ok (), fun _ => true, fun _ _ => .ok okTrue, .ok ()⟩

/-- A config_management client whose full-config read raises. -/
def configClientGetErr : Config.Client :=
  ⟨.ok (), fun _ _ => .error "HTTP 500", fun _ => .error "HTTP 500", fun _ => .ok okTrue,
   fun _ _ => .ok okTrue, fun _ _ => .ok okTrue, .ok (), fun _ => .ok (), fun _ => true,
   fun _ _ => .ok okTrue, .ok ()⟩

/-- A config_management client whose update call raises. -/
def configClientUpdateErr : Config.Client :=
  ⟨.ok (), fun _ _ => .ok [], fun _ => .ok [], fun _ => .error "HTTP 500",
   fun _ _ => .ok okTrue, fun _ _ => .ok okTrue, .ok (), fun _ => .ok (), fun _ => true,
   fun _ _ => .ok okTrue, .ok ()⟩

/-- A domain_management client with no groups, no existing domains, whose
add call raises for `bad.example.com` and succeeds otherwise. -/
def domainClientMixed : Domain.Client :=
  ⟨.ok (), .ok [("groups", .list [])],
   fun _ _ _ => .ok [("success", .bool false)],
   fun d _ _ _ _ _ => if d = "bad.example.com" then .error "boom" else .ok okTrue,
   fun _ _ _ _ _ _ => .ok okTrue,
   fun _ _ _ => .ok okTrue, .ok ()⟩

/-- Two concrete batch entries used to exercise the domain loop: the first
one's add call raises, the second one's succeeds. -/
def entryBad : Domain.Entry :=
  ⟨"bad.example.com", .deny, .exact, .present, none, [], true⟩

/-- The succeeding companion entry of the two-entry batch. -/
def entryGood : Domain.Entry :=
  ⟨"good.example.com", .deny, .exact, .present, none, [], true⟩

/-- Whether the operation-specific parameters required by an action are
present, mirroring the validation checks of config_management.py:283-294. -/
def Config.paramsOk (p : Config.Params) : Config.CAction → Bool
  | .get => true
  | .update => !optDictFalsy p.config_changes
  | .add_item => !(optStrFalsy p.element || optStrFalsy p.value)
  | .delete_item => !(optStrFalsy p.element || optStrFalsy p.value)
  | .exportc => !optStrFalsy p.export_path
  | .importc => !optStrFalsy p.import_path

/-- The success flag of the remote operation a non-check config run
dispatches to for each action (false for get, which never sets changed). -/
def Config.actionSucc (c : Config.Client) (p : Config.Params) : Config.CAction → Bool
  | .get => false
  | .update => (Config.update_config c (p.config_changes.getD [])).1
  | .add_item => (Config.add_config_item c (p.element.getD "") (p.value.getD "")).1
  | .delete_item => (Config.delete_config_item c (p.element.getD "") (p.value.getD "")).1
  | .exportc => (Config.export_config c (p.export_path.getD "")).1
  | .importc => (Config.import_config c (p.import_path.getD "") p.import_options).1

theorem jlookup_assocSet_self (d : JDict) (k : String) (v : JVal) :
    jlookup (assocSet d k v) k = some v := by
  induction d with
  | nil => simp [assocSet, jlookup]
  | cons kv rest ih =>
    obtain ⟨k1, v1⟩ := kv
    by_cases h : k1 = k
    · subst h
      simp [assocSet, jlookup]
    · simp [assocSet, jlookup, h, ih]

theorem jlookup_assocSet_ne (d : JDict) (k key : String) (v : JVal) (h : key ≠ k) :
    jlookup (assocSet d k v) key = jlookup d key := by
  induction d with
  | nil =>
    have hne : ¬k = key := fun hk => h hk.symm
    simp [assocSet, jlookup, hne]
  | cons kv rest ih =>
    obtain ⟨k1, v1⟩ := kv
    by_cases h1 : k1 = k
    · subst h1
      have hne : ¬k1 = key := fun hk => h (hk ▸ rfl)
      simp [assocSet, jlookup, hne]
    · simp [assocSet, jlookup, h1, ih]

theorem getBoolD_assocSet_ne (d : JDict) (k key : String) (v : JVal) (dflt : Bool)
    (h : key ≠ k) : getBoolD (assocSet d k v) key dflt = getBoolD d key dflt := by
  simp [getBoolD, jlookup_assocSet_ne d k key v h]

theorem domain_main_cons (c : Domain.Client) (hc : c.construct = .ok ())
    (e0 : Domain.Entry) (rest : List Domain.Entry) (pw u : String) (ck : Bool) :
    Domain.main ⟨e0 :: rest, pw, u, ck⟩ c =
      (let gm := Domain.get_group_name_to_id_mapping c
       let acc := (e0 :: rest).foldl (Domain.loopStep ck c gm)
         (false, [], [], [.construct, .get_groups])
       (.exited (assocSet (assocSet (assocSet
          [("changed", JVal.bool false), ("domains", JVal.list []), ("results", JVal.list [])]
          "changed" (.bool acc.1)) "domains" (.list acc.2.1)) "results" (.list acc.2.2.1)),
        acc.2.2.2 ++ [.close_session])) := by
  simp [Domain.main, hc]

theorem getBoolD_assocSet_self (d : JDict) (k : String) (v : JVal) (dflt : Bool) :
    getBoolD (assocSet d k v) k dflt = v.truthy := by
  simp [getBoolD, jlookup_assocSet_self]

theorem jlookup_setTimerIf_ne (d : JDict) (t : Option Int) (k : String) (h : k ≠ "timer") :
    jlookup (DnsControl.setTimerIf d t) k = jlookup d k := by
  cases t with
  | none => rfl
  | some n =>
    simp only [DnsControl.setTimerIf]
    split
    · rfl
    · exact jlookup_assocSet_ne d "timer" k (.int n) h

theorem domain_loop_changed (ck : Bool) (c : Domain.Client) (gm : List (String × JVal))
    (es : List Domain.Entry) (acc : Bool × List JVal × List JVal × List RCall) :
    (es.foldl (Domain.loopStep ck c gm) acc).1 =
      (acc.1 || es.any (fun e => (Domain.processOne ck c gm e).2.1)) := by
  induction es generalizing acc with
  | nil => simp
  | cons e rest ih =>
    rw [List.foldl_cons, ih]
    simp [Domain.loopStep, Bool.or_assoc]

/-- C6: two runs of any of the seven modules that differ only in the
password parameter produce identical outcomes and call traces for any
fixed behaviour of the client library, so the password value never
influences, and in particular never appears through the module's own code
in, any returned result record or error payload. -/
theorem password_noninterference :
    (∀ a pw1 pw2 u ck c, Actions.main ⟨a, pw1, u, ck⟩ c = Actions.main ⟨a, pw2, u, ck⟩ c) ∧
    (∀ a t pw1 pw2 u ck c, DnsControl.main ⟨a, t, pw1, u, ck⟩ c = DnsControl.main ⟨a, t, pw2, u, ck⟩ c) ∧
    (∀ a cs cc el v ep ipp iop det pw1 pw2 u ck c,
      Config.main ⟨a, cs, cc, el, v, ep, ipp, iop, det, pw1, u, ck⟩ c =
        Config.main ⟨a, cs, cc, el, v, ep, ipp, iop, det, pw2, u, ck⟩ c) ∧
    (∀ ds pw1 pw2 u ck c, Domain.main ⟨ds, pw1, u, ck⟩ c = Domain.main ⟨ds, pw2, u, ck⟩ c) ∧
    (∀ mt pw1 pw2 u ck c, Metrics.main ⟨mt, pw1, u, ck⟩ c = Metrics.main ⟨mt, pw2, u, ck⟩ c) ∧
    (∀ pw1 pw2 u ck c, FtlInfo.main ⟨pw1, u, ck⟩ c = FtlInfo.main ⟨pw2, u, ck⟩ c) ∧
    (∀ it pw1 pw2 u ck c, NetworkInfo.main ⟨it, pw1, u, ck⟩ c = NetworkInfo.main ⟨it, pw2, u, ck⟩ c) :=
  ⟨fun _ _ _ _ _ _ => rfl, fun _ _ _ _ _ _ _ => rfl,
   fun _ _ _ _ _ _ _ _ _ _ _ _ _ _ => rfl, fun _ _ _ _ _ _ => rfl,
   fun _ _ _ _ _ _ => rfl, fun _ _ _ _ _ => rfl, fun _ _ _ _ _ _ => rfl⟩

/-- C8: for every module, replacing the outcome of the best-effort session
close by any other outcome (including a raised exception) leaves the
module run unchanged: teardown failures are swallowed and never mask the
primary result. -/
theorem session_close_failure_swallowed :
    (∀ p c x, Actions.main p { c with close_session := x } = Actions.main p c) ∧
    (∀ p c x, DnsControl.main p { c with close_session := x } = DnsControl.main p c) ∧
    (∀ p c x, Config.main p { c with close_session := x } = Config.main p c) ∧
    (∀ p c x, Domain.main p { c with close_session := x } = Domain.main p c) ∧
    (∀ p c x, Metrics.main p { c with close_session := x } = Metrics.main p c) ∧
    (∀ p c x, FtlInfo.main p { c with close_session := x } = FtlInfo.main p c) ∧
    (∀ p c x, NetworkInfo.main p { c with close_session := x } = NetworkInfo.main p c) :=
  ⟨fun _ c _ => by cases c; rfl, fun _ c _ => by cases c; rfl, fun _ c _ => by cases c; rfl,
   fun _ c _ => by cases c; rfl, fun _ c _ => by cases c; rfl, fun _ c _ => by cases c; rfl,
   fun _ c _ => by cases c; rfl⟩

/-- C10: when the domains list is empty (or omitted, since its declared
default is the empty list), the domain_management module exits immediately
with changed=false and empty domains and results lists, with an empty call
trace: no client is constructed and no network call is attempted. -/
theorem empty_domains_short_circuit (p : Domain.Params) (c : Domain.Client)
    (h : p.domains = []) :
    Domain.main p c =
      (.exited [("changed", .bool false), ("domains", .list []), ("results", .list [])], []) := by
  obtain ⟨ds, pw, u, ck⟩ := p
  have hds : ds = [] := h
  subst hds
  rfl

/-- C10 witness: the empty-batch short circuit at a concrete input. -/
theorem empty_domains_short_circuit_witness :
    Domain.main ⟨[], "secret", "http://pi.hole", false⟩ domainClientMixed =
      (.exited [("changed", .bool false), ("domains", .list []), ("results", .list [])], []) :=
  empty_domains_short_circuit ⟨[], "secret", "http://pi.hole", false⟩ domainClientMixed rfl

/-- C5 counterexample: in dry-run (check) mode the actions module reports
changed=true even though no mutation occurred, so `changed` is not false
in dry-run simulation mode as claimed. -/
theorem dry_run_changed_not_false :
    changedOf (Actions.main ⟨"flush_arp", "secret", "http://pi.hole", true⟩ actionsClientOK).1 = true :=
  rfl

/-- C2: for every module with an operation selector, a selector outside the
fixed enumerated set fails with an empty call trace, hence before
constructing the client or attempting any network call; and for the config
module, a valid action whose operation-specific required parameter is
missing likewise fails with an empty call trace. -/
theorem invalid_input_rejected_before_network :
    (∀ (p : Actions.Params) (c : Actions.Client), Actions.parseAction p.action = none →
      (Actions.main p c).1.isFailed = true ∧ (Actions.main p c).2 = []) ∧
    (∀ (p : DnsControl.Params) (c : DnsControl.Client), DnsControl.parseAction p.action = none →
      (DnsControl.main p c).1.isFailed = true ∧ (DnsControl.main p c).2 = []) ∧
    (∀ (p : Config.Params) (c : Config.Client), Config.parseAction p.action = none →
      (Config.main p c).1.isFailed = true ∧ (Config.main p c).2 = []) ∧
    (∀ (p : Metrics.Params) (c : Metrics.Client), Metrics.parseMetricType p.metric_type = none →
      (Metrics.main p c).1.isFailed = true ∧ (Metrics.main p c).2 = []) ∧
    (∀ (p : NetworkInfo.Params) (c : NetworkInfo.Client), NetworkInfo.parseInfoType p.info_type = none →
      (NetworkInfo.main p c).1.isFailed = true ∧ (NetworkInfo.main p c).2 = []) ∧
    (∀ (p : Config.Params) (c : Config.Client), Config.parseAction p.action = some .add_item →
      (optStrFalsy p.element || optStrFalsy p.value) = true →
      (Config.main p c).1.isFailed = true ∧ (Config.main p c).2 = []) ∧
    (∀ (p : Config.Params) (c : Config.Client), Config.parseAction p.action = some .delete_item →
      (optStrFalsy p.element || optStrFalsy p.value) = true →
      (Config.main p c).1.isFailed = true ∧ (Config.main p c).2 = []) ∧
    (∀ (p : Config.Params) (c : Config.Client), Config.parseAction p.action = some .update →
      optDictFalsy p.config_changes = true →
      (Config.main p c).1.isFailed = true ∧ (Config.main p c).2 = []) ∧
    (∀ (p : Config.Params) (c : Config.Client), Config.parseAction p.action = some .exportc →
      optStrFalsy p.export_path = true →
      (Config.main p c).1.isFailed = true ∧ (Config.main p c).2 = []) ∧
    (∀ (p : Config.Params) (c : Config.Client), Config.parseAction p.action = some .importc →
      optStrFalsy p.import_path = true →
      (Config.main p c).1.isFailed = true ∧ (Config.main p c).2 = []) := by
  refine ⟨?_, ?_, ?_, ?_, ?_, ?_, ?_, ?_, ?_, ?_⟩
  · intro p c h
    simp [Actions.main, h, Outcome.isFailed]
  · intro p c h
    simp [DnsControl.main, h, Outcome.isFailed]
  · intro p c h
    simp [Config.main, h, Outcome.isFailed]
  · intro p c h
    simp [Metrics.main, h, Outcome.isFailed]
  · intro p c h
    simp [NetworkInfo.main, h, Outcome.isFailed]
  · intro p c h h2
    simp [Config.main, h, h2, Outcome.isFailed]
  · intro p c h h2
    simp [Config.main, h, h2, Outcome.isFailed]
  · intro p c h h2
    simp [Config.main, h, h2, Outcome.isFailed]
  · intro p c h h2
    simp [Config.main, h, h2, Outcome.isFailed]
  · intro p c h h2
    simp [Config.main, h, h2, Outcome.isFailed]

/-- C2 witness: an invalid actions selector and
a config add_item call with no element are both rejected with an empty
call trace. -/
theorem invalid_input_rejected_before_network_witness :
    ((Actions.main ⟨"reboot", "secret", "http://pi.hole", false⟩ actionsClientOK).1.isFailed = true ∧
     (Actions.main ⟨"reboot", "secret", "http://pi.hole", false⟩ actionsClientOK).2 = []) ∧
    ((Config.main ⟨"add_item", none, none, none, some "8.8.8.8", none, none, none, false,
        "secret", "http://pi.hole", false⟩ configClientOK).1.isFailed = true ∧
     (Config.main ⟨"add_item", none, none, none, some "8.8.8.8", none, none, none, false,
        "secret", "http://pi.hole", false⟩ configClientOK).2 = []) :=
  ⟨invalid_input_rejected_before_network.1 ⟨"reboot", "secret", "http://pi.hole", false⟩
      actionsClientOK rfl,
   invalid_input_rejected_before_network.2.2.2.2.2.1
      ⟨"add_item", none, none, none, some "8.8.8.8", none, none, none, false,
        "secret", "http://pi.hole", false⟩ configClientOK rfl rfl⟩

/-- C4: for the dns_control module, when the action is enable and the
remote status reports blocking already on with a zero remaining timer, the
run performs no mutating client call and exits with changed=false. -/
theorem enable_when_already_enabled_noop (p : DnsControl.Params) (c : DnsControl.Client)
    (d : JDict)
    (ha : DnsControl.parseAction p.action = some .enable)
    (hc : c.construct = .ok ())
    (hg : c.get_blocking_status = .ok d)
    (hb : (getD d "blocking" (.bool false)).truthy = true)
    (ht : jGT0 (getD d "timer" (.int 0)) = false) :
    (∀ x ∈ (DnsControl.main p c).2, RCall.mutating x = false) ∧
    ∃ r, (DnsControl.main p c).1 = .exited r ∧ getBoolD r "changed" false = false := by
  have hmain : DnsControl.main p c =
      (.exited (assocSet (assocSet [("changed", JVal.bool false), ("action_performed", JVal.str "")]
          "blocking" (getD d "blocking" (.bool false))) "action_performed" (.str "enable")),
       [.construct, .get_blocking_status, .close_session]) := by
    simp [DnsControl.main, ha, hc, DnsControl.get_blocking_status, hg, ht, hb]
  refine ⟨?_, ?_⟩
  · rw [hmain]
    intro x hx
    simp only [List.mem_cons, List.not_mem_nil, or_false] at hx
    rcases hx with rfl | rfl | rfl <;> rfl
  · rw [hmain]
    refine ⟨_, rfl, ?_⟩
    rw [getBoolD_assocSet_ne _ _ _ _ _ (by decide)]
    rw [getBoolD_assocSet_ne _ _ _ _ _ (by decide)]
    rfl

/-- C4 witness: the enable no-op at a concrete status response. -/
theorem enable_when_already_enabled_noop_witness :
    (∀ x ∈ (DnsControl.main ⟨"enable", none, "secret", "http://pi.hole", false⟩
        dnsClientEnabledNoTimer).2, RCall.mutating x = false) ∧
    ∃ r, (DnsControl.main ⟨"enable", none, "secret", "http://pi.hole", false⟩
        dnsClientEnabledNoTimer).1 = .exited r ∧ getBoolD r "changed" false = false :=
  enable_when_already_enabled_noop ⟨"enable", none, "secret", "http://pi.hole", false⟩
    dnsClientEnabledNoTimer [("blocking", .bool true), ("timer", .int 0)]
    rfl rfl rfl rfl rfl

/-- C9: for the config_management module, the get action never turns a
remote failure into a module failure: with a constructed client it always
exits normally, and when the configuration read raises it exits with
success=false and changed=false; for every other action, an invocation can
only exit normally when its result is successful (a non-success result
causes module failure). -/
theorem config_get_failure_is_lenient :
    (∀ (p : Config.Params) (c : Config.Client),
      Config.parseAction p.action = some .get → c.construct = .ok () →
      ∃ r, (Config.main p c).1 = .exited r) ∧
    (∀ (p : Config.Params) (c : Config.Client) (e : String),
      Config.parseAction p.action = some .get → optStrFalsy p.config_section = true →
      c.construct = .ok () → c.get_config p.detailed = .error e →
      ∃ r, (Config.main p c).1 = .exited r ∧
        getBoolD r "success" false = false ∧ getBoolD r "changed" false = false) ∧
    (∀ (p : Config.Params) (c : Config.Client) (a : Config.CAction),
      Config.parseAction p.action = some a → Config.isGet a = false →
      ∀ r, (Config.main p c).1 = .exited r → getBoolD r "success" false = true) := by
  refine ⟨?_, ?_, ?_⟩
  · intro p c ha hc
    simp [Config.main, ha, Config.mainBody, hc, Config.isGet]
  · intro p c e ha hcs hc hg
    have hgc : Config.get_config c p.config_section p.detailed = (false, [("error", .str e)]) := by
      simp [Config.get_config, hcs, hg]
    have hmain : (Config.main p c).1 =
        .exited (assocSet (assocSet (assocSet
            [("changed", JVal.bool false), ("action_performed", JVal.str ""),
             ("success", JVal.bool false), ("response", JVal.dict [])]
            "action_performed" (.str p.action)) "success" (.bool false))
            "response" (.dict [("error", .str e)])) := by
      simp [Config.main, ha, Config.mainBody, hc, Config.isGet, Config.actionStep, hgc,
        getBoolD, jlookup_assocSet_self, JVal.truthy]
    refine ⟨_, hmain, ?_, ?_⟩
    · rw [getBoolD_assocSet_ne _ _ _ _ _ (by decide)]
      simp [getBoolD, jlookup_assocSet_self, JVal.truthy]
    · rw [getBoolD_assocSet_ne _ _ _ _ _ (by decide),
        getBoolD_assocSet_ne _ _ _ _ _ (by decide),
        getBoolD_assocSet_ne _ _ _ _ _ (by decide)]
      rfl
  · intro p c a ha hget r hmain
    cases a
    case get => simp [Config.isGet] at hget
    all_goals
      simp only [Config.main, ha] at hmain
    case update =>
      split at hmain
      · simp [Outcome.isFailed] at hmain
      · simp only [Config.mainBody] at hmain
        rcases hcon : c.construct with e | u
        · rw [hcon] at hmain
          simp at hmain
        · rw [hcon] at hmain
          simp only [Config.isGet, Bool.or_false] at hmain
          split at hmain
          · rename_i hsucc
            simp at hmain
            rw [← hmain]
            exact hsucc
          · simp at hmain
    case exportc =>
      split at hmain
      · simp [Outcome.isFailed] at hmain
      · simp only [Config.mainBody] at hmain
        rcases hcon : c.construct with e | u
        · rw [hcon] at hmain
          simp at hmain
        · rw [hcon] at hmain
          simp only [Config.isGet, Bool.or_false] at hmain
          split at hmain
          · rename_i hsucc
            simp at hmain
            rw [← hmain]
            exact hsucc
          · simp at hmain
    case importc =>
      split at hmain
      · simp [Outcome.isFailed] at hmain
      · simp only [Config.mainBody] at hmain
        rcases hcon : c.construct with e | u
        · rw [hcon] at hmain
          simp at hmain
        · rw [hcon] at hmain
          simp only [Config.isGet, Bool.or_false] at hmain
          split at hmain
          · rename_i hsucc
            simp at hmain
            rw [← hmain]
            exact hsucc
          · simp at hmain
    case add_item =>
      split at hmain
      · simp [Outcome.isFailed] at hmain
      · simp only [Config.mainBody] at hmain
        rcases hcon : c.construct with e | u
        · rw [hcon] at hmain
          simp at hmain
        · rw [hcon] at hmain
          simp only [Config.isGet, Bool.or_false] at hmain
          split at hmain
          · rename_i hsucc
            simp at hmain
            rw [← hmain]
            exact hsucc
          · simp at hmain
    case delete_item =>
      split at hmain
      · simp [Outcome.isFailed] at hmain
      · simp only [Config.mainBody] at hmain
        rcases hcon : c.construct with e | u
        · rw [hcon] at hmain
          simp at hmain
        · rw [hcon] at hmain
          simp only [Config.isGet, Bool.or_false] at hmain
          split at hmain
          · rename_i hsucc
            simp at hmain
            rw [← hmain]
            exact hsucc
          · simp at hmain

/-- C9 witness: a raised full-config read exits
normally with success=false and changed=false. -/
theorem config_get_failure_is_lenient_witness :
    ∃ r, (Config.main ⟨"get", none, none, none, none, none, none, none, false,
        "secret", "http://pi.hole", false⟩ configClientGetErr).1 = .exited r ∧
      getBoolD r "success" false = false ∧ getBoolD r "changed" false = false :=
  config_get_failure_is_lenient.2.1
    ⟨"get", none, none, none, none, none, none, none, false, "secret", "http://pi.hole", false⟩
    configClientGetErr "HTTP 500" rfl rfl rfl rfl

theorem processOne_fields (ck : Bool) (c : Domain.Client) (gm : List (String × JVal))
    (e : Domain.Entry) :
    jlookup (Domain.processOne ck c gm e).1 "domain" = some (.str e.domain) ∧
    (∃ b, jlookup (Domain.processOne ck c gm e).1 "success" = some (.bool b)) ∧
    (∃ b, jlookup (Domain.processOne ck c gm e).1 "changed" = some (.bool b)) := by
  obtain ⟨dom, dt, k, st, cm, gs, en⟩ := e
  cases st <;> simp only [Domain.processOne] <;> split <;> try split
  all_goals simp [assocSet, jlookup]

theorem domain_loop_results (ck : Bool) (c : Domain.Client) (gm : List (String × JVal))
    (es : List Domain.Entry) (acc : Bool × List JVal × List JVal × List RCall) :
    (es.foldl (Domain.loopStep ck c gm) acc).2.2.1 =
      acc.2.2.1 ++ es.map (fun e => .dict (Domain.processOne ck c gm e).1) := by
  induction es generalizing acc with
  | nil => simp
  | cons e rest ih =>
    rw [List.foldl_cons, ih]
    simp [Domain.loopStep]

theorem list_get_map_of_eq {α β : Type} (f : α → β) (l : List α) (l2 : List β)
    (h : l2 = l.map f) (i : Nat) (hi : i < l2.length) (hp2 : i < l.length) :
    l2.get ⟨i, hi⟩ = f (l.get ⟨i, hp2⟩) := by
  subst h
  rw [List.get_eq_getElem, List.getElem_map, List.get_eq_getElem]

/-- C3: for the domain_management module, a batch of N entries (with a
constructed client) always exits normally with exactly N result records,
one per entry in order, each carrying its own success and changed flags;
a failing entry does not abort the processing of the rest. -/
theorem domain_batch_one_result_per_entry (p : Domain.Params) (c : Domain.Client)
    (hc : c.construct = .ok ()) :
    ∃ l : List JVal,
      (Domain.main p c).1.isFailed = false ∧
      jlookup (Domain.main p c).1.dict "results" = some (.list l) ∧
      l.length = p.domains.length ∧
      ∀ i (hi : i < l.length) (hp2 : i < p.domains.length),
        ∃ dr : JDict, l.get ⟨i, hi⟩ = .dict dr ∧
          jlookup dr "domain" = some (.str ((p.domains.get ⟨i, hp2⟩).domain)) ∧
          (∃ b, jlookup dr "success" = some (.bool b)) ∧
          (∃ b, jlookup dr "changed" = some (.bool b)) := by
  obtain ⟨ds, pw, u, ck⟩ := p
  cases ds with
  | nil =>
    refine ⟨[], ?_, ?_, rfl, ?_⟩
    · rfl
    · rfl
    · intro i hi hp2
      exact absurd hi (by simp)
  | cons e0 rest =>
    rw [domain_main_cons c hc e0 rest pw u ck]
    simp only []
    set gm := Domain.get_group_name_to_id_mapping c with hgm
    set acc := (e0 :: rest).foldl (Domain.loopStep ck c gm)
      (false, [], [], [.construct, .get_groups]) with hacc
    refine ⟨acc.2.2.1, rfl, ?_, ?_, ?_⟩
    · exact jlookup_assocSet_self _ _ _
    · rw [hacc, domain_loop_results]
      simp
    · intro i hi hp2
      have hres : acc.2.2.1 =
          (e0 :: rest).map (fun e => .dict (Domain.processOne ck c gm e).1) := by
        rw [hacc, domain_loop_results]
        simp
      have hget : acc.2.2.1.get ⟨i, hi⟩ =
          .dict (Domain.processOne ck c gm ((e0 :: rest).get ⟨i, hp2⟩)).1 :=
        list_get_map_of_eq _ _ _ hres i hi hp2
      refine ⟨(Domain.processOne ck c gm ((e0 :: rest).get ⟨i, hp2⟩)).1, hget, ?_⟩
      exact processOne_fields ck c gm ((e0 :: rest).get ⟨i, hp2⟩)

/-- C3 witness: a two-entry batch whose first
add call raises still yields two records in order. -/
theorem domain_batch_one_result_per_entry_witness :
    ∃ l : List JVal,
      (Domain.main ⟨[entryBad, entryGood], "secret", "http://pi.hole", false⟩
        domainClientMixed).1.isFailed = false ∧
      jlookup (Domain.main ⟨[entryBad, entryGood], "secret", "http://pi.hole", false⟩
        domainClientMixed).1.dict "results" = some (.list l) ∧
      l.length = ([entryBad, entryGood] : List Domain.Entry).length ∧
      ∀ i (hi : i < l.length)
        (hp2 : i < ([entryBad, entryGood] : List Domain.Entry).length),
        ∃ dr : JDict, l.get ⟨i, hi⟩ = .dict dr ∧
          jlookup dr "domain" =
            some (.str ((([entryBad, entryGood] : List Domain.Entry).get ⟨i, hp2⟩).domain)) ∧
          (∃ b, jlookup dr "success" = some (.bool b)) ∧
          (∃ b, jlookup dr "changed" = some (.bool b)) :=
  domain_batch_one_result_per_entry
    ⟨[entryBad, entryGood], "secret", "http://pi.hole", false⟩ domainClientMixed rfl

/-- C5 (amended): for every module, outside dry-run mode `changed` is
false whenever no successful mutation occurred: the actions module's
changed equals the success of its dispatched call; the config module's
mutating actions (given their required parameters) report changed exactly
when the remote call succeeded, and get never reports changed; when the
status read succeeds, the dns_control module reports changed exactly when
a needed set_blocking_status call succeeded (and status never reports
changed); the domain_management module's changed is the disjunction of
its per-entry flags, each of which outside dry-run is true only if that
entry's update, add or delete call succeeded; the read-only modules never
report changed.  In dry-run mode changed is not false but reports the
hypothetical mutation: always true for the actions module, false for the
domain module's check-mode update of an existing entry. -/
theorem changed_reflects_mutation :
    (∀ (p : Actions.Params) (c : Actions.Client) (a : Actions.AAction),
      Actions.parseAction p.action = some a → p.checkMode = false → c.construct = .ok () →
      changedOf (Actions.main p c).1 = succOf (Actions.callFor c a)) ∧
    (∀ (p : Actions.Params) (c : Actions.Client) (a : Actions.AAction),
      Actions.parseAction p.action = some a → p.checkMode = true → c.construct = .ok () →
      changedOf (Actions.main p c).1 = true) ∧
    (∀ (p : Config.Params) (c : Config.Client),
      Config.parseAction p.action = some .get → changedOf (Config.main p c).1 = false) ∧
    (∀ (p : Config.Params) (c : Config.Client) (a : Config.CAction),
      Config.parseAction p.action = some a → Config.isGet a = false →
      Config.paramsOk p a = true → p.checkMode = false → c.construct = .ok () →
      changedOf (Config.main p c).1 = Config.actionSucc c p a) ∧
    (∀ (p : DnsControl.Params) (c : DnsControl.Client) (d : JDict),
      DnsControl.parseAction p.action = some .enable → p.checkMode = false →
      c.construct = .ok () → c.get_blocking_status = .ok d →
      changedOf (DnsControl.main p c).1 =
        ((!(getD d "blocking" (.bool false)).truthy || jGT0 (getD d "timer" (.int 0))) &&
          (DnsControl.set_blocking_status c true p.timer).1)) ∧
    (∀ (p : DnsControl.Params) (c : DnsControl.Client) (d : JDict),
      DnsControl.parseAction p.action = some .disable → p.checkMode = false →
      c.construct = .ok () → c.get_blocking_status = .ok d →
      changedOf (DnsControl.main p c).1 =
        ((getD d "blocking" (.bool false)).truthy &&
          (DnsControl.set_blocking_status c false p.timer).1)) ∧
    (∀ (p : DnsControl.Params) (c : DnsControl.Client),
      DnsControl.parseAction p.action = some .status →
      changedOf (DnsControl.main p c).1 = false) ∧
    (∀ (p : Domain.Params) (c : Domain.Client), c.construct = .ok () →
      changedOf (Domain.main p c).1 = p.domains.any (fun e =>
        (Domain.processOne p.checkMode c (Domain.get_group_name_to_id_mapping c) e).2.1)) ∧
    (∀ (c : Domain.Client) (gm : List (String × JVal)) (e : Domain.Entry),
      (Domain.processOne false c gm e).2.1 = true →
      (Domain.update_domain c e gm).1 = true ∨ (Domain.add_domain c e gm).1 = true ∨
      (Domain.delete_domain c e).1 = true) ∧
    (∀ (c : Domain.Client) (gm : List (String × JVal)) (e : Domain.Entry),
      e.state = .present → Domain.domain_exists c e.domain e.domain_type e.kind = true →
      (Domain.processOne true c gm e).2.1 = false) ∧
    (∀ (p : Metrics.Params) (c : Metrics.Client), changedOf (Metrics.main p c).1 = false) ∧
    (∀ (p : FtlInfo.Params) (c : FtlInfo.Client), changedOf (FtlInfo.main p c).1 = false) ∧
    (∀ (p : NetworkInfo.Params) (c : NetworkInfo.Client),
      changedOf (NetworkInfo.main p c).1 = false) := by
  refine ⟨?_, ?_, ?_, ?_, ?_, ?_, ?_, ?_, ?_, ?_, ?_, ?_, ?_⟩
  · intro p c a hp hck hcon
    rcases hcall : Actions.callFor c a with e | d
    · have hpa : Actions.perform_action c a = (false, [("error", .str e)]) := by
        simp [Actions.perform_action, hcall]
      simp [Actions.main, hp, hcon, hck, hpa, succOf, hcall, changedOf, Outcome.dict,
        assocSet, jlookup, getBoolD, JVal.truthy]
    · have hpa : Actions.perform_action c a = (getBoolD d "success" false, d) := by
        simp [Actions.perform_action, hcall]
      cases hs : getBoolD d "success" false <;>
        simp only [Actions.main, hp, hcon, hck, hpa, hs, succOf, hcall] <;>
        simp [hs, changedOf, Outcome.dict, assocSet, jlookup, getBoolD, JVal.truthy]
  · intro p c a hp hck hcon
    simp [Actions.main, hp, hcon, hck, changedOf, Outcome.dict, assocSet, jlookup,
      getBoolD, JVal.truthy]
  · intro p c hp
    rcases hcon : c.construct with e | u
    · simp [Config.main, hp, Config.mainBody, hcon, changedOf, Outcome.dict, assocSet,
        jlookup, getBoolD, JVal.truthy]
    · simp only [Config.main, hp, Config.mainBody, hcon, Config.actionStep, Config.isGet,
        Bool.or_true]
      split
      · split <;> simp [changedOf, Outcome.dict, assocSet, jlookup, getBoolD, JVal.truthy]
      · rename_i hfalse
        exact absurd trivial hfalse
  · intro p c a hp hg hpo hck hcon
    cases a
    case get => simp [Config.isGet] at hg
    case update =>
      have hv : optDictFalsy p.config_changes = false := by
        simpa [Config.paramsOk] using hpo
      cases hsucc : (Config.update_config c (p.config_changes.getD [])).1 <;>
        simp [Config.main, hp, hv, Config.mainBody, hcon, Config.actionStep, hck, hsucc,
          Config.isGet, Config.actionSucc, changedOf, Outcome.dict, assocSet, jlookup,
          getBoolD, JVal.truthy]
    case add_item =>
      have hv : (optStrFalsy p.element || optStrFalsy p.value) = false := by
        simpa [Config.paramsOk] using hpo
      cases hsucc : (Config.add_config_item c (p.element.getD "") (p.value.getD "")).1 <;>
        simp [Config.main, hp, hv, Config.mainBody, hcon, Config.actionStep, hck, hsucc,
          Config.isGet, Config.actionSucc, changedOf, Outcome.dict, assocSet, jlookup,
          getBoolD, JVal.truthy]
    case delete_item =>
      have hv : (optStrFalsy p.element || optStrFalsy p.value) = false := by
        simpa [Config.paramsOk] using hpo
      cases hsucc : (Config.delete_config_item c (p.element.getD "") (p.value.getD "")).1 <;>
        simp [Config.main, hp, hv, Config.mainBody, hcon, Config.actionStep, hck, hsucc,
          Config.isGet, Config.actionSucc, changedOf, Outcome.dict, assocSet, jlookup,
          getBoolD, JVal.truthy]
    case exportc =>
      have hv : optStrFalsy p.export_path = false := by
        simpa [Config.paramsOk] using hpo
      cases hsucc : (Config.export_config c (p.export_path.getD "")).1 <;>
        simp [Config.main, hp, hv, Config.mainBody, hcon, Config.actionStep, hck, hsucc,
          Config.isGet, Config.actionSucc, changedOf, Outcome.dict, assocSet, jlookup,
          getBoolD, JVal.truthy]
    case importc =>
      have hv : optStrFalsy p.import_path = false := by
        simpa [Config.paramsOk] using hpo
      cases hsucc : (Config.import_config c (p.import_path.getD "") p.import_options).1 <;>
        simp [Config.main, hp, hv, Config.mainBody, hcon, Config.actionStep, hck, hsucc,
          Config.isGet, Config.actionSucc, changedOf, Outcome.dict, assocSet, jlookup,
          getBoolD, JVal.truthy]
  · intro p c d hp hck hcon hg
    by_cases hcond : (!(getD d "blocking" (.bool false)).truthy ||
        jGT0 (getD d "timer" (.int 0))) = true
    · simp only [DnsControl.main, hp, hcon, DnsControl.get_blocking_status, hg]
      rw [if_pos hcond]
      rw [if_pos (show (!p.checkMode) = true by simp [hck])]
      cases hs : (DnsControl.set_blocking_status c true p.timer).1
      · rw [if_neg (by simp)]
        split <;>
          simp [hs, hcond, changedOf, Outcome.dict, assocSet, jlookup, getBoolD, JVal.truthy]
      · rw [if_pos rfl]
        rw [hcond]
        simp [changedOf, Outcome.dict, getBoolD, jlookup_setTimerIf_ne,
          jlookup_assocSet_ne, jlookup_assocSet_self, JVal.truthy]
    · have hcond2 : (!(getD d "blocking" (.bool false)).truthy ||
          jGT0 (getD d "timer" (.int 0))) = false := Bool.eq_false_iff.mpr hcond
      have hj : jGT0 (getD d "timer" (.int 0)) = false := by
        cases hjg : jGT0 (getD d "timer" (.int 0))
        · rfl
        · rw [hjg] at hcond2
          simp at hcond2
      simp only [DnsControl.main, hp, hcon, DnsControl.get_blocking_status, hg]
      rw [if_neg hcond]
      rw [if_neg (by simp [hj])]
      rw [hcond2]
      simp [changedOf, Outcome.dict, assocSet, jlookup, getBoolD, JVal.truthy]
  · intro p c d hp hck hcon hg
    by_cases hcond : (getD d "blocking" (.bool false)).truthy = true
    · simp only [DnsControl.main, hp, hcon, DnsControl.get_blocking_status, hg]
      rw [if_pos hcond]
      rw [if_pos (show (!p.checkMode) = true by simp [hck])]
      cases hs : (DnsControl.set_blocking_status c false p.timer).1
      · rw [if_neg (by simp)]
        split <;>
          simp [hs, hcond, changedOf, Outcome.dict, assocSet, jlookup, getBoolD, JVal.truthy]
      · rw [if_pos rfl]
        rw [hcond]
        simp [changedOf, Outcome.dict, getBoolD, jlookup_setTimerIf_ne,
          jlookup_assocSet_ne, jlookup_assocSet_self, JVal.truthy]
    · have hcond2 : (getD d "blocking" (.bool false)).truthy = false :=
        Bool.eq_false_iff.mpr hcond
      simp only [DnsControl.main, hp, hcon, DnsControl.get_blocking_status, hg]
      rw [if_neg hcond]
      rw [hcond2]
      split <;>
        simp [changedOf, Outcome.dict, assocSet, jlookup, getBoolD, JVal.truthy]
  · intro p c hp
    rcases hcon : c.construct with e | u
    · simp [DnsControl.main, hp, hcon, changedOf, Outcome.dict, getBoolD, jlookup,
        JVal.truthy]
    · rcases hg : c.get_blocking_status with e | d
      · simp [DnsControl.main, DnsControl.get_blocking_status, hp, hcon, hg, changedOf,
          Outcome.dict, getBoolD, jlookup, JVal.truthy]
      · simp only [DnsControl.main, DnsControl.get_blocking_status, hp, hcon, hg]
        split <;>
          simp [changedOf, Outcome.dict, assocSet, jlookup, getBoolD, JVal.truthy]
  · intro p c hcon
    obtain ⟨ds, pw, u2, ck⟩ := p
    cases ds with
    | nil => rfl
    | cons e0 rest =>
      rw [domain_main_cons c hcon e0 rest pw u2 ck]
      simp only [changedOf, Outcome.dict]
      rw [getBoolD_assocSet_ne _ _ _ _ _ (by decide)]
      rw [getBoolD_assocSet_ne _ _ _ _ _ (by decide)]
      rw [getBoolD_assocSet_self]
      rw [domain_loop_changed]
      simp [JVal.truthy]
  · intro c gm e h
    obtain ⟨dom, dt, kk, st, cm, gs, en⟩ := e
    cases st
    case present =>
      by_cases hex : Domain.domain_exists c dom dt kk = true
      · left
        simpa [Domain.processOne, hex] using h
      · right
        left
        have hex2 : Domain.domain_exists c dom dt kk = false := Bool.eq_false_iff.mpr hex
        simpa [Domain.processOne, hex2] using h
    case absent =>
      by_cases hex : Domain.domain_exists c dom dt kk = true
      · right
        right
        simpa [Domain.processOne, hex] using h
      · have hex2 : Domain.domain_exists c dom dt kk = false := Bool.eq_false_iff.mpr hex
        simp [Domain.processOne, hex2] at h
  · intro c gm e hst hex
    obtain ⟨dom, dt, kk, st, cm, gs, en⟩ := e
    have h2 : st = .present := hst
    subst h2
    simp only [Domain.processOne] at hex ⊢
    simp [hex]
  · intro p c
    rcases hp : Metrics.parseMetricType p.metric_type with _ | mt
    · simp [Metrics.main, hp, changedOf, Outcome.dict, getBoolD, jlookup]
    · rcases hcon : c.construct with e | u
      · simp [Metrics.main, hp, hcon, changedOf, Outcome.dict, getBoolD, jlookup,
          assocSet, JVal.truthy]
      · simp only [Metrics.main, hp, hcon]
        split <;>
          simp [changedOf, Outcome.dict, assocSet, jlookup, getBoolD, JVal.truthy]
  · intro p c
    rcases hcon : c.construct with e | u
    · simp [FtlInfo.main, hcon, changedOf, Outcome.dict, getBoolD, jlookup, assocSet,
        JVal.truthy]
    · simp only [FtlInfo.main, hcon]
      split <;>
        simp [changedOf, Outcome.dict, assocSet, jlookup, getBoolD, JVal.truthy]
  · intro p c
    rcases hp : NetworkInfo.parseInfoType p.info_type with _ | it
    · simp [NetworkInfo.main, hp, changedOf, Outcome.dict, getBoolD, jlookup]
    · rcases hcon : c.construct with e | u
      · simp [NetworkInfo.main, hp, hcon, changedOf, Outcome.dict, getBoolD, jlookup,
          assocSet, JVal.truthy]
      · simp only [NetworkInfo.main, hp, hcon]
        split <;>
          simp [changedOf, Outcome.dict, assocSet, jlookup, getBoolD, JVal.truthy]

/-- C5 witness: the changed/mutation tie at concrete runs of the actions,
config and domain modules. -/
theorem changed_reflects_mutation_witness :
    changedOf (Actions.main ⟨"flush_arp", "secret", "http://pi.hole", false⟩
        actionsClientOK).1 = succOf (Actions.callFor actionsClientOK .flush_arp) ∧
    changedOf (Actions.main ⟨"flush_arp", "secret", "http://pi.hole", true⟩
        actionsClientOK).1 = true ∧
    changedOf (Config.main ⟨"update", none, some [("dns_fqdn_required", JVal.bool true)],
        none, none, none, none, none, false, "secret", "http://pi.hole", false⟩
        configClientUpdateErr).1 =
      Config.actionSucc configClientUpdateErr
        ⟨"update", none, some [("dns_fqdn_required", JVal.bool true)],
         none, none, none, none, none, false, "secret", "http://pi.hole", false⟩ .update ∧
    changedOf (Domain.main ⟨[entryBad, entryGood], "secret", "http://pi.hole", false⟩
        domainClientMixed).1 =
      ([entryBad, entryGood] : List Domain.Entry).any (fun e =>
        (Domain.processOne false domainClientMixed
          (Domain.get_group_name_to_id_mapping domainClientMixed) e).2.1) :=
  ⟨changed_reflects_mutation.1 ⟨"flush_arp", "secret", "http://pi.hole", false⟩
      actionsClientOK .flush_arp rfl rfl rfl,
   changed_reflects_mutation.2.1 ⟨"flush_arp", "secret", "http://pi.hole", true⟩
      actionsClientOK .flush_arp rfl rfl rfl,
   changed_reflects_mutation.2.2.2.1
      ⟨"update", none, some [("dns_fqdn_required", JVal.bool true)],
       none, none, none, none, none, false, "secret", "http://pi.hole", false⟩
      configClientUpdateErr .update rfl rfl rfl rfl rfl,
   changed_reflects_mutation.2.2.2.2.2.2.2.1
      ⟨[entryBad, entryGood], "secret", "http://pi.hole", false⟩ domainClientMixed rfl⟩
